import Mathlib

/-!
Verification of the queue-django-api ticketing core.

Part 1 embeds the data model of src/queueing/models.py (Window, Service,
Ticket with its daily-reset queue numbering, people_ahead and display
number) and the public read endpoint of src/queueing/views.py.

Part 2 embeds the staff queue engine of src/queueing/staff_views.py
(call_next_ticket, call_specific_ticket, start_serving, complete_serving,
remove_ticket, recall_ticket) as state-transition functions over an
explicit store of tickets and windows.

Dates and timestamps are abstracted as natural numbers; the database is a
list of records; a Django save() is an in-place functional update.
-/

/-- Ticket.STATUS_CHOICES in src/queueing/models.py: exactly five values
(waiting, notified, serving, served, cancelled); there is no skipped value. -/
inductive MStatus
  | waiting
  | notified
  | serving
  | served
  | cancelled
deriving DecidableEq, Repr

/-- Window model of src/queueing/models.py (fields used by the queueing
logic: number, service_type, status, current_queue_number, last_queue_reset). -/
structure MWindow where
  number : Nat
  service_type : String
  wstatus : String
  current_queue_number : Nat
  last_queue_reset : Nat
deriving DecidableEq, Repr

/-- Service model of src/queueing/models.py (fields used by the queueing
logic).  average_service_time has Django default 5. -/
structure MService where
  sname : String
  average_service_time : Nat
  current_queue_number : Nat
  last_queue_reset : Nat
deriving DecidableEq, Repr

/-- Ticket model of src/queueing/models.py: a ticket belongs either to a
specific window (registrar/permit) or to a shared service_group (cashier). -/
structure MTicket where
  window : Option Nat
  service_group : Option String
  queue_number : Nat
  status : MStatus
  ticket_date : Nat
deriving DecidableEq, Repr

/-- Window.get_next_queue_number in src/queueing/models.py: reset the
counter when last_queue_reset is not today, then increment and save
(auto_now sets last_queue_reset to today on save). -/
def window_get_next_queue_number (today : Nat) (w : MWindow) : Nat × MWindow :=
  let w1 := if w.last_queue_reset ≠ today then
      { w with current_queue_number := 0, last_queue_reset := today }
    else w
  let w2 := { w1 with current_queue_number := w1.current_queue_number + 1,
                      last_queue_reset := today }
  (w2.current_queue_number, w2)

/-- Service.get_next_queue_number in src/queueing/models.py: same
reset-then-increment logic as on Window. -/
def service_get_next_queue_number (today : Nat) (s : MService) : Nat × MService :=
  let s1 := if s.last_queue_reset ≠ today then
      { s with current_queue_number := 0, last_queue_reset := today }
    else s
  let s2 := { s1 with current_queue_number := s1.current_queue_number + 1,
                      last_queue_reset := today }
  (s2.current_queue_number, s2)

/-- The last cashier ticket of the day, by queue number: models
Ticket.objects.filter(service_group='cashier', ticket_date=today)
.order_by('-queue_number').first() in Ticket.save — the maximal
queue_number among cashier tickets of the day, if any. -/
def last_cashier_number (db : List MTicket) (today : Nat) : Option Nat :=
  ((db.filter fun u => u.service_group == some "cashier" && u.ticket_date == today).map
      MTicket.queue_number).foldr
    (fun a acc => match acc with
      | none => some a
      | some b => some (max a b))
    none

/-- Queue number assigned by Ticket.save in src/queueing/models.py for a
cashier (shared-queue) ticket: previous maximum plus one, or 1 on an
empty day. -/
def cashier_next_number (db : List MTicket) (today : Nat) : Nat :=
  match last_cashier_number db today with
  | some m => m + 1
  | none => 1

/-- Iterate the Service counter allocator: queue numbers handed out by n
successive calls of Service.get_next_queue_number on one day. -/
def issueNumbers (today : Nat) : MService → Nat → List Nat
  | _, 0 => []
  | s, n + 1 =>
    let r := service_get_next_queue_number today s
    r.1 :: issueNumbers today r.2 n

/-- Iterate cashier issuance (Ticket.save with no window): each step
creates a waiting cashier ticket with cashier_next_number and adds it to
the store; returns the queue numbers in issue order. -/
def issueCashier (today : Nat) : List MTicket → Nat → List Nat
  | _, 0 => []
  | db, n + 1 =>
    let q := cashier_next_number db today
    let t : MTicket := ⟨none, some "cashier", q, MStatus.waiting, today⟩
    q :: issueCashier today (t :: db) n

/-- Ticket.people_ahead in src/queueing/models.py: 0 for
serving/served/cancelled tickets, otherwise the count of waiting/notified
tickets of the same day in the same window queue (window tickets) or the
same service_group queue (cashier tickets) with strictly smaller
queue_number. -/
def people_ahead (db : List MTicket) (t : MTicket) : Nat :=
  if t.status = MStatus.serving ∨ t.status = MStatus.served ∨ t.status = MStatus.cancelled then
    0
  else
    match t.window with
    | some w =>
      (db.filter fun u =>
        u.window == some w && u.ticket_date == t.ticket_date &&
        (u.status == MStatus.waiting || u.status == MStatus.notified) &&
        decide (u.queue_number < t.queue_number)).length
    | none =>
      (db.filter fun u =>
        u.service_group == t.service_group && u.ticket_date == t.ticket_date &&
        (u.status == MStatus.waiting || u.status == MStatus.notified) &&
        decide (u.queue_number < t.queue_number)).length

/-- Zero padding of Python format 03d: pad with zeros to width 3. -/
def padZero3 (n : Nat) : String :=
  let s := toString n
  if s.length < 3 then String.mk (List.replicate (3 - s.length) '0') ++ s else s

/-- Ticket.get_display_number in src/queueing/models.py: the bare
zero-padded queue number, with no service code in front. -/
def get_display_number (t : MTicket) : String :=
  padZero3 t.queue_number

/-- The estimated_wait_minutes reported by ticket_status in
src/queueing/views.py: people_ahead times the fixed constant 5. -/
def estimated_wait_minutes (db : List MTicket) (t : MTicket) : Nat :=
  people_ahead db t * 5

/-- The spec formula for the wait estimate (spec section 4.5):
peopleAhead times the average_service_time of the ticket's own service. -/
def estimatedWaitSpec (svc : MService) (db : List MTicket) (t : MTicket) : Nat :=
  people_ahead db t * svc.average_service_time

/-- The spec formula for the display number (spec section 3): service
code in front of the zero-padded queue number. -/
def displayNumberSpec (code : String) (t : MTicket) : String :=
  code ++ padZero3 t.queue_number

/-- Whether two tickets queue against the same key, as Ticket.people_ahead
filters: the same window for window tickets, the same service_group for
shared-queue tickets. -/
def sameQueueKey (t u : MTicket) : Bool :=
  match t.window with
  | some w => u.window == some w
  | none => u.service_group == t.service_group

/-- The spec count (spec section 4.5): tickets of the same service and
ticket_date in waiting or notified with strictly smaller queue_number. -/
def aheadCountSpec (db : List MTicket) (t : MTicket) : Nat :=
  (db.filter fun u =>
    sameQueueKey t u && u.ticket_date == t.ticket_date &&
    (u.status == MStatus.waiting || u.status == MStatus.notified) &&
    decide (u.queue_number < t.queue_number)).length


section SequenceLemmas

lemma range'_cons (s n : Nat) : List.range' s (n + 1) = s :: List.range' (s + 1) n := rfl

lemma service_step_today (today : Nat) (s : MService) (h : s.last_queue_reset = today) :
    service_get_next_queue_number today s =
      (s.current_queue_number + 1,
       { s with current_queue_number := s.current_queue_number + 1, last_queue_reset := today }) := by
  simp [service_get_next_queue_number, h]

lemma issueNumbers_today (today : Nat) :
    ∀ (n : Nat) (s : MService), s.last_queue_reset = today →
      issueNumbers today s n = List.range' (s.current_queue_number + 1) n := by
  intro n
  induction n with
  | zero => intro s _; rfl
  | succ n ih =>
    intro s h1
    simp only [issueNumbers, service_step_today today s h1]
    rw [ih _ rfl]
    rfl

lemma lcn_cons (today q : Nat) (db : List MTicket) :
    last_cashier_number (MTicket.mk none (some "cashier") q MStatus.waiting today :: db) today =
      match last_cashier_number db today with
      | none => some q
      | some b => some (max q b) := by
  unfold last_cashier_number
  simp [List.filter_cons]

lemma lcn_none (today : Nat) (db : List MTicket)
    (h : ∀ u ∈ db, ¬(u.service_group = some "cashier" ∧ u.ticket_date = today)) :
    last_cashier_number db today = none := by
  unfold last_cashier_number
  have hf : db.filter
      (fun u => u.service_group == some "cashier" && u.ticket_date == today) = [] := by
    rw [List.filter_eq_nil_iff]
    intro u hu
    have := h u hu
    simp only [Bool.and_eq_true, beq_iff_eq]
    intro hc
    exact this ⟨hc.1, hc.2⟩
  rw [hf]
  rfl

lemma issueCashier_some (today : Nat) :
    ∀ (n k : Nat) (db : List MTicket), last_cashier_number db today = some k →
      issueCashier today db n = List.range' (k + 1) n := by
  intro n
  induction n with
  | zero => intro k db _; rfl
  | succ n ih =>
    intro k db h
    have hq : cashier_next_number db today = k + 1 := by
      simp [cashier_next_number, h]
    have hnew : last_cashier_number
        (MTicket.mk none (some "cashier") (k + 1) MStatus.waiting today :: db) today =
        some (k + 1) := by
      rw [lcn_cons, h]
      simp [Nat.max_eq_left (Nat.le_succ k)]
    simp only [issueCashier, hq]
    rw [ih (k + 1) _ hnew]
    rfl

lemma issueCashier_none (today n : Nat) (db : List MTicket)
    (h : last_cashier_number db today = none) :
    issueCashier today db n = List.range' 1 n := by
  cases n with
  | zero => rfl
  | succ n =>
    have hq : cashier_next_number db today = 1 := by
      simp [cashier_next_number, h]
    have hnew : last_cashier_number
        (MTicket.mk none (some "cashier") 1 MStatus.waiting today :: db) today = some 1 := by
      rw [lcn_cons, h]
    simp only [issueCashier, hq]
    rw [issueCashier_some today n 1 _ hnew]
    rfl

end SequenceLemmas

/-- C3: sequential issuance for one (service, day) key yields queue numbers
exactly 1, 2, ..., N: the Service counter allocator started on a fresh day
(or with zero prior tickets today) hands out List.range' 1 n, and the
cashier shared-queue path of Ticket.save started from a store with no
cashier ticket today likewise hands out List.range' 1 n — strictly
increasing from 1 with no duplicates and no gaps, each number the previous
plus one. -/
theorem sequential_issuance_one_to_n (today n : Nat) (s : MService) (db : List MTicket)
    (hs : s.last_queue_reset ≠ today ∨ s.current_queue_number = 0)
    (hdb : ∀ u ∈ db, ¬(u.service_group = some "cashier" ∧ u.ticket_date = today)) :
    issueNumbers today s n = List.range' 1 n ∧ issueCashier today db n = List.range' 1 n := by
  constructor
  · rcases hs with hs | hs
    · cases n with
      | zero => rfl
      | succ n =>
        have hstep : service_get_next_queue_number today s =
            (1, { s with current_queue_number := 1, last_queue_reset := today }) := by
          simp [service_get_next_queue_number, hs]
        simp only [issueNumbers, hstep]
        rw [issueNumbers_today today n _ rfl]
        rfl
    · by_cases h1 : s.last_queue_reset = today
      · rw [issueNumbers_today today n s h1, hs]
      · cases n with
        | zero => rfl
        | succ n =>
          have hstep : service_get_next_queue_number today s =
              (1, { s with current_queue_number := 1, last_queue_reset := today }) := by
            simp [service_get_next_queue_number, h1]
          simp only [issueNumbers, hstep]
          rw [issueNumbers_today today n _ rfl]
          rfl
  · exact issueCashier_none today n db (lcn_none today db hdb)

/-- Witness for C3 at a concrete input: a service whose counter last reset
on day 0 (value 7) issues 1,2,3 on day 1, and three cashier tickets on an
empty store get numbers 1,2,3. -/
theorem sequential_issuance_one_to_n_witness :
    issueNumbers 1 ⟨"registrar", 5, 7, 0⟩ 3 = List.range' 1 3 ∧
      issueCashier 1 [] 3 = List.range' 1 3 :=
  sequential_issuance_one_to_n 1 3 ⟨"registrar", 5, 7, 0⟩ []
    (Or.inl (by decide)) (by simp)

/-- C4: Ticket.people_ahead equals the count of waiting/notified tickets of
the same queue key (service window or service_group) and ticket_date with
strictly smaller queue number, and equals 0 when the ticket itself is
serving, served or cancelled.  STATUS_CHOICES in src/queueing/models.py has
no skipped value, so these three states are exactly the states past
notified. -/
theorem people_ahead_matches_spec (db : List MTicket) (t : MTicket) :
    people_ahead db t =
      if t.status = MStatus.serving ∨ t.status = MStatus.served ∨ t.status = MStatus.cancelled
      then 0 else aheadCountSpec db t := by
  unfold people_ahead aheadCountSpec sameQueueKey
  split
  · rfl
  · rcases hw : t.window with _ | w <;> simp [hw]

/-- C5 counterexample store: three waiting cashier tickets on day 0. -/
def dbWait : List MTicket :=
  [⟨none, some "cashier", 1, MStatus.waiting, 0⟩,
   ⟨none, some "cashier", 2, MStatus.waiting, 0⟩,
   ⟨none, some "cashier", 3, MStatus.waiting, 0⟩]

/-- A cashier service whose average_service_time is 10 minutes. -/
def svcSlow : MService := ⟨"cashier", 10, 0, 0⟩

/-- C5 counterexample: for the third waiting ticket of a service with
average_service_time 10, ticket_status reports 2 * 5 = 10 minutes while
the spec formula peopleAhead * average_service_time gives 2 * 10 = 20:
the code multiplies by the fixed constant 5, not by the service's own
average_service_time. -/
theorem estimated_wait_ignores_service_time :
    estimated_wait_minutes dbWait ⟨none, some "cashier", 3, MStatus.waiting, 0⟩ = 10 ∧
      estimatedWaitSpec svcSlow dbWait ⟨none, some "cashier", 3, MStatus.waiting, 0⟩ = 20 ∧
      estimated_wait_minutes dbWait ⟨none, some "cashier", 3, MStatus.waiting, 0⟩ ≠
        estimatedWaitSpec svcSlow dbWait ⟨none, some "cashier", 3, MStatus.waiting, 0⟩ := by
  decide

/-- C5 amended: estimated_wait_minutes equals people_ahead times the fixed
constant 5 (not the service's average_service_time), and is 0 once the
ticket is serving, served or cancelled. -/
theorem estimated_wait_is_five_per_person (db : List MTicket) (t : MTicket) :
    estimated_wait_minutes db t =
      if t.status = MStatus.serving ∨ t.status = MStatus.served ∨ t.status = MStatus.cancelled
      then 0 else people_ahead db t * 5 := by
  unfold estimated_wait_minutes people_ahead
  split <;> rfl

/-- C6 counterexample: the first cashier ticket displays as "001", not
"C001": Ticket.get_display_number returns only the zero-padded queue
number and never adds a service code in front. -/
theorem display_number_has_no_service_code :
    get_display_number ⟨none, some "cashier", 1, MStatus.waiting, 0⟩ = "001" ∧
      displayNumberSpec "C" ⟨none, some "cashier", 1, MStatus.waiting, 0⟩ = "C001" ∧
      get_display_number ⟨none, some "cashier", 1, MStatus.waiting, 0⟩ ≠
        displayNumberSpec "C" ⟨none, some "cashier", 1, MStatus.waiting, 0⟩ := by
  decide

/-- C6 amended: the display number is the bare zero-padded three-digit
queue number; the first three tickets of any service display as 001, 002
and 003. -/
theorem display_number_zero_padded :
    get_display_number ⟨none, some "cashier", 1, MStatus.waiting, 0⟩ = "001" ∧
      get_display_number ⟨none, some "cashier", 2, MStatus.waiting, 0⟩ = "002" ∧
      get_display_number ⟨none, some "cashier", 3, MStatus.waiting, 0⟩ = "003" := by
  decide

/-!
Part 2: the staff queue engine of src/queueing/staff_views.py.

staff_views.py operates on the current-generation schema (ServiceWindow,
and a Ticket carrying service, assigned_window, display_number, called_by,
served_by, notes), whose model declarations are not in
src/queueing/models.py; the record types below are modelled from the spec
(sections 3 and 4.2), while each operation is translated from the body of
the corresponding view function in src/queueing/staff_views.py.
-/

/-- Modelled from the spec: ticket status of the current-generation Ticket
model (spec section 3), which is absent from src/queueing/models.py; the
spec status set includes skipped, and recall_ticket in
src/queueing/staff_views.py reads it. -/
inductive Status
  | waiting
  | notified
  | serving
  | served
  | cancelled
  | skipped
deriving DecidableEq, Repr

/-- The Python status string of a status value, as interpolated into
notes by recall_ticket. -/
def statusName : Status → String
  | Status.waiting => "waiting"
  | Status.notified => "notified"
  | Status.serving => "serving"
  | Status.served => "served"
  | Status.cancelled => "cancelled"
  | Status.skipped => "skipped"

/-- Modelled from the spec: window status of the ServiceWindow model
(spec section 3), absent from src/queueing/models.py. -/
inductive WStatus
  | active
  | inactive
  | maintenance
deriving DecidableEq, Repr

/-- Modelled from the spec: the current-generation Ticket model (spec
section 3), absent from src/queueing/models.py — exactly the fields
src/queueing/staff_views.py reads and writes: ticket_id, service,
queue_number, display_number, status, ticket_date, assigned_window,
called_by, called_at, served_by, served_at, notes.  Identities and
timestamps are naturals. -/
structure Ticket where
  tid : Nat
  service : Nat
  queue_number : Nat
  display_number : String
  status : Status
  ticket_date : Nat
  assigned_window : Option Nat
  called_by : Option Nat
  called_at : Option Nat
  served_by : Option Nat
  served_at : Option Nat
  notes : String
deriving DecidableEq, Repr

/-- Modelled from the spec: the ServiceWindow model (spec section 3),
absent from src/queueing/models.py — the fields staff_views.py queries:
id, owning service, window_number, name, status. -/
structure ServiceWindow where
  wid : Nat
  service : Nat
  window_number : Nat
  wname : String
  wstatus : WStatus
deriving DecidableEq, Repr

/-- The store the engine operates on: all windows and all tickets. -/
structure EState where
  windows : List ServiceWindow
  tickets : List Ticket
deriving DecidableEq, Repr

/-- Request context: the authenticated staff user, the service assigned to
their staff profile, and the current date and time. -/
structure Ctx where
  user : Nat
  service : Nat
  today : Nat
  now : Nat
deriving DecidableEq, Repr

/-- The typed errors of the engine (spec section 7; staff_views.py returns
them as 404/400/403 responses). -/
inductive Err
  | notFound
  | invalidState
  | windowUnavailable
  | queueEmpty
  | permissionDenied
deriving DecidableEq, Repr

/-- Update every ticket with the given ticket_id (Django: save() of the
mutated row). -/
def updT (l : List Ticket) (k : Nat) (g : Ticket → Ticket) : List Ticket :=
  l.map fun t => if t.tid = k then g t else t

/-- Row lookup by ticket_id: Ticket.objects.get(ticket_id=...). -/
def findT (l : List Ticket) (k : Nat) : Option Ticket :=
  l.find? fun t => t.tid == k

/-- ServiceWindow.objects.get(id=window_id, service=service,
status='active') as used by call_next_ticket and call_specific_ticket. -/
def findWindow (s : EState) (c : Ctx) (window_id : Nat) : Option ServiceWindow :=
  s.windows.find? fun w =>
    w.wid == window_id && w.service == c.service && w.wstatus == WStatus.active

/-- The filter of the currently-serving query in call_next_ticket and
call_specific_ticket: service, assigned_window, ticket_date today,
status serving. -/
def servingHere (c : Ctx) (w : ServiceWindow) (t : Ticket) : Bool :=
  t.service == c.service && t.assigned_window == some w.wid &&
    t.ticket_date == c.today && t.status == Status.serving

/-- Ticket.objects.filter(service, assigned_window, ticket_date=today,
status='serving').first(). -/
def currentServing (s : EState) (c : Ctx) (w : ServiceWindow) : Option Ticket :=
  s.tickets.find? (servingHere c w)

/-- The filter of the next-waiting query in call_next_ticket. -/
def waitingToday (c : Ctx) (t : Ticket) : Bool :=
  t.service == c.service && t.ticket_date == c.today && t.status == Status.waiting

/-- One step of the order_by('queue_number').first() scan. -/
def minStep (acc : Option Ticket) (t : Ticket) : Option Ticket :=
  match acc with
  | none => some t
  | some u => if t.queue_number < u.queue_number then some t else some u

/-- order_by('queue_number').first(): the ticket with the smallest queue
number in the list (first one on ties). -/
def minByQueue (l : List Ticket) : Option Ticket :=
  l.foldl minStep none

/-- The next waiting ticket of the staff service today, smallest queue
number first. -/
def nextWaiting (s : EState) (c : Ctx) : Option Ticket :=
  minByQueue (s.tickets.filter (waitingToday c))

/-- The auto-complete write: status served, served_by the acting user,
served_at now. -/
def serveComplete (c : Ctx) (t : Ticket) : Ticket :=
  { t with status := Status.served, served_by := some c.user, served_at := some c.now }

/-- The assignment write of call_next_ticket and call_specific_ticket:
status serving, called_by, called_at, assigned_window. -/
def assignServing (c : Ctx) (w : ServiceWindow) (t : Ticket) : Ticket :=
  { t with status := Status.serving, called_by := some c.user,
           called_at := some c.now, assigned_window := some w.wid }

/-- The write of start_serving: only status and assigned_window are set
(no called_by, no called_at, no auto-complete of the window). -/
def startServingUpd (w : ServiceWindow) (t : Ticket) : Ticket :=
  { t with status := Status.serving, assigned_window := some w.wid }

/-- The write of remove_ticket: status cancelled, notes overwritten with
the removal reason. -/
def removeUpd (reason : String) (t : Ticket) : Ticket :=
  { t with status := Status.cancelled, notes := "Removed from queue: " ++ reason }

/-- The write of recall_ticket: status waiting, prior status written in
front of the notes, called_by and called_at cleared. -/
def recallUpd (t : Ticket) : Ticket :=
  { t with status := Status.waiting,
           notes := "Recalled from " ++ statusName t.status ++ ": " ++ t.notes,
           called_by := none, called_at := none }

/-- STEP 1 of call_next_ticket and call_specific_ticket: if the window is
already serving a ticket, mark it served (served_by the acting user,
served_at now); otherwise leave the store unchanged. -/
def completeCurrent (c : Ctx) (s : EState) (w : ServiceWindow) : EState :=
  match currentServing s c w with
  | some ct => { s with tickets := updT s.tickets ct.tid (serveComplete c) }
  | none => s

/-- call_next_ticket in src/queueing/staff_views.py: look up the active
window of the staff service; auto-complete its currently-serving ticket if
any; pick the waiting ticket of the service today with the smallest queue
number; on empty queue return an error — the auto-complete write persists,
because the early return leaves the transaction.atomic block normally and
commits; otherwise assign the picked ticket to the window. -/
def call_next_ticket (c : Ctx) (s : EState) (window_id : Nat) :
    Except Err Nat × EState :=
  match findWindow s c window_id with
  | none => (Except.error Err.windowUnavailable, s)
  | some w =>
    let s1 := completeCurrent c s w
    match nextWaiting s1 c with
    | none => (Except.error Err.queueEmpty, s1)
    | some nt =>
      (Except.ok nt.tid, { s1 with tickets := updT s1.tickets nt.tid (assignServing c w) })

/-- call_specific_ticket in src/queueing/staff_views.py: look up the
active window, find the ticket of the service today by display number,
reject unless it is waiting or notified, auto-complete the window's
currently-serving ticket if any, then assign. -/
def call_specific_ticket (c : Ctx) (s : EState) (ticket_number : String) (window_id : Nat) :
    Except Err Nat × EState :=
  match findWindow s c window_id with
  | none => (Except.error Err.windowUnavailable, s)
  | some w =>
    match s.tickets.find? (fun t =>
        t.service == c.service && t.ticket_date == c.today &&
        t.display_number == ticket_number) with
    | none => (Except.error Err.notFound, s)
    | some t =>
      if ¬(t.status = Status.waiting ∨ t.status = Status.notified) then
        (Except.error Err.invalidState, s)
      else
        let s1 := completeCurrent c s w
        (Except.ok t.tid, { s1 with tickets := updT s1.tickets t.tid (assignServing c w) })

/-- start_serving in src/queueing/staff_views.py: find the ticket by id,
check the staff service, reject unless waiting or notified, look up the
active window of the ticket's service, then set status serving and
assigned_window — it does NOT auto-complete the ticket currently serving
at that window, and sets neither called_by nor called_at. -/
def start_serving (c : Ctx) (s : EState) (ticket_id : Nat) (window_id : Nat) :
    Except Err Nat × EState :=
  match findT s.tickets ticket_id with
  | none => (Except.error Err.notFound, s)
  | some t =>
    if t.service ≠ c.service then (Except.error Err.permissionDenied, s)
    else if ¬(t.status = Status.waiting ∨ t.status = Status.notified) then
      (Except.error Err.invalidState, s)
    else
      match s.windows.find? (fun w =>
          w.wid == window_id && w.service == t.service && w.wstatus == WStatus.active) with
      | none => (Except.error Err.windowUnavailable, s)
      | some w =>
        (Except.ok t.tid, { s with tickets := updT s.tickets t.tid (startServingUpd w) })

/-- complete_serving in src/queueing/staff_views.py: find the ticket,
check the staff service, reject unless serving, then set served with
served_by and served_at. -/
def complete_serving (c : Ctx) (s : EState) (ticket_id : Nat) :
    Except Err Nat × EState :=
  match findT s.tickets ticket_id with
  | none => (Except.error Err.notFound, s)
  | some t =>
    if t.service ≠ c.service then (Except.error Err.permissionDenied, s)
    else if t.status ≠ Status.serving then (Except.error Err.invalidState, s)
    else
      (Except.ok t.tid, { s with tickets := updT s.tickets t.tid (serveComplete c) })

/-- remove_ticket in src/queueing/staff_views.py: find the ticket, check
the staff service, reject only a served ticket, then set cancelled and
overwrite notes with the removal reason. -/
def remove_ticket (c : Ctx) (s : EState) (ticket_id : Nat) (reason : String) :
    Except Err Nat × EState :=
  match findT s.tickets ticket_id with
  | none => (Except.error Err.notFound, s)
  | some t =>
    if t.service ≠ c.service then (Except.error Err.permissionDenied, s)
    else if t.status = Status.served then (Except.error Err.invalidState, s)
    else
      (Except.ok t.tid, { s with tickets := updT s.tickets t.tid (removeUpd reason) })

/-- recall_ticket in src/queueing/staff_views.py: find the ticket, check
the staff service, reject unless notified, skipped or cancelled, then set
waiting, write the prior status in front of the notes, and clear called_by
and called_at. -/
def recall_ticket (c : Ctx) (s : EState) (ticket_id : Nat) :
    Except Err Nat × EState :=
  match findT s.tickets ticket_id with
  | none => (Except.error Err.notFound, s)
  | some t =>
    if t.service ≠ c.service then (Except.error Err.permissionDenied, s)
    else if ¬(t.status = Status.notified ∨ t.status = Status.skipped ∨
               t.status = Status.cancelled) then
      (Except.error Err.invalidState, s)
    else
      (Except.ok t.tid, { s with tickets := updT s.tickets t.tid recallUpd })

/-- Modelled from the spec: SequenceAllocator (spec section 4.1) — the
smallest integer at least 1 not yet issued for the (service, today) key;
the current-generation issuance path is absent from src. -/
def allocate (s : EState) (c : Ctx) : Nat :=
  let used := (s.tickets.filter
    (fun t => t.service == c.service && t.ticket_date == c.today)).map Ticket.queue_number
  match (List.range (used.length + 2)).filter
      (fun k => decide (1 ≤ k) && !(used.contains k)) with
  | [] => 1
  | k :: _ => k

/-- Modelled from the spec: issue() (spec section 4.2) — creates a ticket
in waiting with a fresh allocator number and today's date; the
current-generation issuance view is absent from src. -/
def issue (c : Ctx) (s : EState) (new_tid : Nat) (disp : String) : EState :=
  let t : Ticket :=
    Ticket.mk new_tid c.service (allocate s c) disp Status.waiting c.today
      none none none none none ""
  { s with tickets := t :: s.tickets }

section EngineLemmas

lemma updT_map_tid (l : List Ticket) (k : Nat) (g : Ticket → Ticket)
    (hg : ∀ t, (g t).tid = t.tid) :
    (updT l k g).map Ticket.tid = l.map Ticket.tid := by
  induction l with
  | nil => rfl
  | cons a l ih =>
    simp only [updT, List.map_cons] at ih ⊢
    rw [ih]
    by_cases hk : a.tid = k
    · rw [if_pos hk, hg a]
    · rw [if_neg hk]

lemma mem_updT {l : List Ticket} {k : Nat} {g : Ticket → Ticket} {t : Ticket}
    (h : t ∈ updT l k g) :
    (∃ u, u ∈ l ∧ u.tid = k ∧ t = g u) ∨ (t ∈ l ∧ t.tid ≠ k) := by
  unfold updT at h
  rcases List.mem_map.1 h with ⟨u, hu, he⟩
  by_cases hk : u.tid = k
  · exact Or.inl ⟨u, hu, hk, by rw [← he, if_pos hk]⟩
  · refine Or.inr ?_
    rw [← he, if_neg hk]
    exact ⟨hu, hk⟩

lemma mem_updT_of_mem {l : List Ticket} {k : Nat} {g : Ticket → Ticket} {u : Ticket}
    (h : u ∈ l) :
    (if u.tid = k then g u else u) ∈ updT l k g := by
  unfold updT
  exact List.mem_map_of_mem _ h

lemma tid_unique {l : List Ticket} (hnd : (l.map Ticket.tid).Nodup) {t1 t2 : Ticket}
    (h1 : t1 ∈ l) (h2 : t2 ∈ l) (he : t1.tid = t2.tid) : t1 = t2 := by
  induction l with
  | nil => cases h1
  | cons a l ih =>
    rw [List.map_cons, List.nodup_cons] at hnd
    rcases List.mem_cons.1 h1 with he1 | h1 <;> rcases List.mem_cons.1 h2 with he2 | h2
    · rw [he1, he2]
    · exfalso
      have hm : t2.tid ∈ l.map Ticket.tid := List.mem_map_of_mem _ h2
      rw [← he, he1] at hm
      exact hnd.1 hm
    · exfalso
      have hm : t1.tid ∈ l.map Ticket.tid := List.mem_map_of_mem _ h1
      rw [he, he2] at hm
      exact hnd.1 hm
    · exact ih hnd.2 h1 h2

lemma findT_of_mem {l : List Ticket} (hnd : (l.map Ticket.tid).Nodup) {t : Ticket}
    (h : t ∈ l) : findT l t.tid = some t := by
  induction l with
  | nil => cases h
  | cons a l ih =>
    rw [List.map_cons, List.nodup_cons] at hnd
    rcases List.mem_cons.1 h with rfl | h
    · simp [findT]
    · have hne : (a.tid == t.tid) = false := by
        rw [beq_eq_false_iff_ne]
        intro hc
        exact hnd.1 (hc ▸ List.mem_map_of_mem _ h)
      unfold findT at ih ⊢
      rw [List.find?_cons, hne]
      exact ih hnd.2 h

lemma findT_updT (l : List Ticket) (k : Nat) (g : Ticket → Ticket)
    (hg : ∀ t, (g t).tid = t.tid) (j : Nat) :
    findT (updT l k g) j = (findT l j).map (fun t => if t.tid = k then g t else t) := by
  induction l with
  | nil => rfl
  | cons a l ih =>
    unfold updT findT at ih ⊢
    simp only [List.map_cons, List.find?_cons]
    have htid : (if a.tid = k then g a else a).tid = a.tid := by
      by_cases hk : a.tid = k
      · rw [if_pos hk, hg a]
      · rw [if_neg hk]
    rw [htid]
    by_cases hj : (a.tid == j) = true
    · rw [hj]
      rfl
    · rw [Bool.not_eq_true] at hj
      rw [hj]
      exact ih

lemma minFold_mem : ∀ (l : List Ticket) (acc : Option Ticket) (t : Ticket),
    l.foldl minStep acc = some t → acc = some t ∨ t ∈ l := by
  intro l
  induction l with
  | nil =>
    intro acc t h
    exact Or.inl h
  | cons a l ih =>
    intro acc t h
    rcases ih (minStep acc a) t h with h1 | h1
    · cases acc with
      | none =>
        simp only [minStep, Option.some_inj] at h1
        exact Or.inr (h1 ▸ List.mem_cons_self a l)
      | some u =>
        simp only [minStep] at h1
        by_cases hlt : a.queue_number < u.queue_number
        · rw [if_pos hlt, Option.some_inj] at h1
          exact Or.inr (h1 ▸ List.mem_cons_self a l)
        · rw [if_neg hlt] at h1
          exact Or.inl h1
    · exact Or.inr (List.mem_cons_of_mem a h1)

lemma minByQueue_mem {l : List Ticket} {t : Ticket} (h : minByQueue l = some t) : t ∈ l := by
  rcases minFold_mem l none t h with h1 | h1
  · cases h1
  · exact h1

lemma nextWaiting_spec {s : EState} {c : Ctx} {t : Ticket} (h : nextWaiting s c = some t) :
    t ∈ s.tickets ∧ t.service = c.service ∧ t.ticket_date = c.today ∧
      t.status = Status.waiting := by
  have hm := minByQueue_mem h
  rw [List.mem_filter] at hm
  refine ⟨hm.1, ?_⟩
  have := hm.2
  unfold waitingToday at this
  simp only [Bool.and_eq_true, beq_iff_eq] at this
  exact ⟨this.1.1, this.1.2, this.2⟩

lemma currentServing_spec {s : EState} {c : Ctx} {w : ServiceWindow} {t : Ticket}
    (h : currentServing s c w = some t) :
    t ∈ s.tickets ∧ t.service = c.service ∧ t.assigned_window = some w.wid ∧
      t.ticket_date = c.today ∧ t.status = Status.serving := by
  have hm := List.mem_of_find?_eq_some h
  have hp := List.find?_some h
  unfold servingHere at hp
  simp only [Bool.and_eq_true, beq_iff_eq] at hp
  exact ⟨hm, hp.1.1.1, hp.1.1.2, hp.1.2, hp.2⟩

lemma findWindow_spec {s : EState} {c : Ctx} {wid : Nat} {w : ServiceWindow}
    (h : findWindow s c wid = some w) :
    w ∈ s.windows ∧ w.wid = wid ∧ w.service = c.service ∧ w.wstatus = WStatus.active := by
  have hm := List.mem_of_find?_eq_some h
  have hp := List.find?_some h
  simp only [Bool.and_eq_true, beq_iff_eq] at hp
  exact ⟨hm, hp.1.1, hp.1.2, hp.2⟩

end EngineLemmas

/-- The one-ticket-per-window invariant (claim form): any two serving
tickets assigned to the same window with the same ticket_date are the
same ticket. -/
def AMOS (l : List Ticket) : Prop :=
  ∀ t1 ∈ l, ∀ t2 ∈ l,
    t1.status = Status.serving → t2.status = Status.serving →
    t1.assigned_window.isSome = true → t1.assigned_window = t2.assigned_window →
    t1.ticket_date = t2.ticket_date → t1 = t2

/-- The invariant on the whole store. -/
def atMostOneServing (s : EState) : Prop := AMOS s.tickets

/-- Serving tickets sit at windows of their own service: if a serving
ticket is assigned to a window of the store, the window belongs to the
ticket's service.  All assignments in staff_views.py look the window up
with service=... , so the engine maintains this. -/
def coherentWindows (s : EState) : Prop :=
  ∀ t ∈ s.tickets, t.status = Status.serving →
    ∀ w ∈ s.windows, t.assigned_window = some w.wid → t.service = w.service

section InvariantLemmas

lemma AMOS_updT_nonserving {l : List Ticket} {k : Nat} {g : Ticket → Ticket}
    (hg : ∀ t, (g t).status ≠ Status.serving) (h : AMOS l) : AMOS (updT l k g) := by
  intro t1 h1 t2 h2 hs1 hs2 hsome heq hdate
  rcases mem_updT h1 with ⟨u1, _, _, he1⟩ | ⟨h1m, _⟩
  · exact absurd (he1 ▸ hs1) (hg u1)
  rcases mem_updT h2 with ⟨u2, _, _, he2⟩ | ⟨h2m, _⟩
  · exact absurd (he2 ▸ hs2) (hg u2)
  exact h t1 h1m t2 h2m hs1 hs2 hsome heq hdate

lemma AMOS_cons_nonserving {l : List Ticket} {t : Ticket}
    (ht : t.status ≠ Status.serving) (h : AMOS l) : AMOS (t :: l) := by
  intro t1 h1 t2 h2 hs1 hs2 hsome heq hdate
  rcases List.mem_cons.1 h1 with he1 | h1
  · exact absurd (he1 ▸ hs1) ht
  rcases List.mem_cons.1 h2 with he2 | h2
  · exact absurd (he2 ▸ hs2) ht
  exact h t1 h1 t2 h2 hs1 hs2 hsome heq hdate

lemma AMOS_updT_serving {l : List Ticket} {k : Nat} {g : Ticket → Ticket}
    (hnd : (l.map Ticket.tid).Nodup)
    (h : AMOS l)
    (hclear : ∀ u ∈ l, u.tid = k → ∀ t ∈ l, t.tid ≠ k → t.status = Status.serving →
        t.assigned_window = (g u).assigned_window → t.ticket_date = (g u).ticket_date → False) :
    AMOS (updT l k g) := by
  intro t1 h1 t2 h2 hs1 hs2 _ heq hdate
  rcases mem_updT h1 with ⟨u1, hu1, hu1k, he1⟩ | ⟨h1m, h1k⟩
  · rcases mem_updT h2 with ⟨u2, hu2, hu2k, he2⟩ | ⟨h2m, h2k⟩
    · have hu : u1 = u2 := tid_unique hnd hu1 hu2 (hu1k.trans hu2k.symm)
      rw [he1, he2, hu]
    · exfalso
      apply hclear u1 hu1 hu1k t2 h2m h2k hs2
      · rw [← he1]
        exact heq.symm
      · rw [← he1]
        exact hdate.symm
  · rcases mem_updT h2 with ⟨u2, hu2, hu2k, he2⟩ | ⟨h2m, h2k⟩
    · exfalso
      apply hclear u2 hu2 hu2k t1 h1m h1k hs1
      · rw [← he2]
        exact heq
      · rw [← he2]
        exact hdate
    · exact h t1 h1m t2 h2m hs1 hs2 (by assumption) heq hdate

lemma serveComplete_tid (c : Ctx) : ∀ t, (serveComplete c t).tid = t.tid := by
  intro t
  rfl

lemma assignServing_tid (c : Ctx) (w : ServiceWindow) :
    ∀ t, (assignServing c w t).tid = t.tid := by
  intro t
  rfl

lemma AMOS_completeCurrent {c : Ctx} {s : EState} {w : ServiceWindow}
    (h : AMOS s.tickets) : AMOS (completeCurrent c s w).tickets := by
  unfold completeCurrent
  cases hcs : currentServing s c w with
  | none => exact h
  | some ct =>
    exact AMOS_updT_nonserving (fun t => by simp [serveComplete]) h

lemma nodup_completeCurrent {c : Ctx} {s : EState} {w : ServiceWindow}
    (hnd : (s.tickets.map Ticket.tid).Nodup) :
    ((completeCurrent c s w).tickets.map Ticket.tid).Nodup := by
  unfold completeCurrent
  cases hcs : currentServing s c w with
  | none => exact hnd
  | some ct =>
    show ((updT s.tickets ct.tid (serveComplete c)).map Ticket.tid).Nodup
    rw [updT_map_tid _ _ _ (serveComplete_tid c)]
    exact hnd

lemma no_serving_here_after_complete {c : Ctx} {s : EState} {window_id : Nat}
    {w : ServiceWindow}
    (hw : findWindow s c window_id = some w)
    (hco : coherentWindows s)
    (hone : AMOS s.tickets) :
    ∀ t ∈ (completeCurrent c s w).tickets, t.status = Status.serving →
      t.assigned_window = some w.wid → t.ticket_date = c.today → False := by
  intro t ht hs haw hdate
  obtain ⟨hwmem, _, hwservice, _⟩ := findWindow_spec hw
  unfold completeCurrent at ht
  cases hcs : currentServing s c w with
  | none =>
    rw [hcs] at ht
    have hnone := List.find?_eq_none.1 hcs t ht
    apply hnone
    have hserv : t.service = c.service := by
      rw [hco t ht hs w hwmem haw, hwservice]
    simp [servingHere, hserv, haw, hdate, hs]
  | some ct =>
    rw [hcs] at ht
    obtain ⟨hctmem, hctservice, hctaw, hctdate, hctserving⟩ := currentServing_spec hcs
    rcases mem_updT ht with ⟨u, _, _, he⟩ | ⟨htm, htk⟩
    · rw [he] at hs
      exact absurd hs (by simp [serveComplete])
    · have : t = ct := by
        apply hone t htm ct hctmem hs hctserving
        · rw [haw]
          rfl
        · rw [haw, hctaw]
        · rw [hdate, hctdate]
      exact htk (by rw [this])
end InvariantLemmas

section EquationLemmas

lemma callNext_none_eq {c : Ctx} {s : EState} {window_id : Nat}
    (hw : findWindow s c window_id = none) :
    call_next_ticket c s window_id = (Except.error Err.windowUnavailable, s) := by
  unfold call_next_ticket
  rw [hw]

lemma callNext_empty_eq {c : Ctx} {s : EState} {window_id : Nat} {w : ServiceWindow}
    (hw : findWindow s c window_id = some w)
    (hnw : nextWaiting (completeCurrent c s w) c = none) :
    call_next_ticket c s window_id = (Except.error Err.queueEmpty, completeCurrent c s w) := by
  unfold call_next_ticket
  rw [hw]
  dsimp only
  rw [hnw]

lemma callNext_ok_eq {c : Ctx} {s : EState} {window_id : Nat} {w : ServiceWindow} {nt : Ticket}
    (hw : findWindow s c window_id = some w)
    (hnw : nextWaiting (completeCurrent c s w) c = some nt) :
    call_next_ticket c s window_id =
      (Except.ok nt.tid,
       { completeCurrent c s w with
           tickets := updT (completeCurrent c s w).tickets nt.tid (assignServing c w) }) := by
  unfold call_next_ticket
  rw [hw]
  dsimp only
  rw [hnw]

lemma callSpec_none_eq {c : Ctx} {s : EState} {num : String} {window_id : Nat}
    (hw : findWindow s c window_id = none) :
    call_specific_ticket c s num window_id = (Except.error Err.windowUnavailable, s) := by
  unfold call_specific_ticket
  rw [hw]

lemma callSpec_notfound_eq {c : Ctx} {s : EState} {num : String} {window_id : Nat}
    {w : ServiceWindow}
    (hw : findWindow s c window_id = some w)
    (hf : s.tickets.find? (fun t =>
        t.service == c.service && t.ticket_date == c.today &&
        t.display_number == num) = none) :
    call_specific_ticket c s num window_id = (Except.error Err.notFound, s) := by
  unfold call_specific_ticket
  rw [hw]
  dsimp only
  rw [hf]

lemma callSpec_invalid_eq {c : Ctx} {s : EState} {num : String} {window_id : Nat}
    {w : ServiceWindow} {t : Ticket}
    (hw : findWindow s c window_id = some w)
    (hf : s.tickets.find? (fun t =>
        t.service == c.service && t.ticket_date == c.today &&
        t.display_number == num) = some t)
    (hst : ¬(t.status = Status.waiting ∨ t.status = Status.notified)) :
    call_specific_ticket c s num window_id = (Except.error Err.invalidState, s) := by
  unfold call_specific_ticket
  rw [hw]
  dsimp only
  rw [hf]
  dsimp only
  rw [if_pos hst]

lemma callSpec_ok_eq {c : Ctx} {s : EState} {num : String} {window_id : Nat}
    {w : ServiceWindow} {t : Ticket}
    (hw : findWindow s c window_id = some w)
    (hf : s.tickets.find? (fun t =>
        t.service == c.service && t.ticket_date == c.today &&
        t.display_number == num) = some t)
    (hst : t.status = Status.waiting ∨ t.status = Status.notified) :
    call_specific_ticket c s num window_id =
      (Except.ok t.tid,
       { completeCurrent c s w with
           tickets := updT (completeCurrent c s w).tickets t.tid (assignServing c w) }) := by
  unfold call_specific_ticket
  rw [hw]
  dsimp only
  rw [hf]
  dsimp only
  rw [if_neg (not_not_intro hst)]

lemma startServ_notfound_eq {c : Ctx} {s : EState} {ticket_id window_id : Nat}
    (hf : findT s.tickets ticket_id = none) :
    start_serving c s ticket_id window_id = (Except.error Err.notFound, s) := by
  unfold start_serving
  rw [hf]

lemma startServ_perm_eq {c : Ctx} {s : EState} {ticket_id window_id : Nat} {t : Ticket}
    (hf : findT s.tickets ticket_id = some t)
    (hp : t.service ≠ c.service) :
    start_serving c s ticket_id window_id = (Except.error Err.permissionDenied, s) := by
  unfold start_serving
  rw [hf]
  dsimp only
  rw [if_pos hp]

lemma startServ_invalid_eq {c : Ctx} {s : EState} {ticket_id window_id : Nat} {t : Ticket}
    (hf : findT s.tickets ticket_id = some t)
    (hp : t.service = c.service)
    (hst : ¬(t.status = Status.waiting ∨ t.status = Status.notified)) :
    start_serving c s ticket_id window_id = (Except.error Err.invalidState, s) := by
  unfold start_serving
  rw [hf]
  dsimp only
  rw [if_neg (not_not_intro hp), if_pos hst]

lemma startServ_nowin_eq {c : Ctx} {s : EState} {ticket_id window_id : Nat} {t : Ticket}
    (hf : findT s.tickets ticket_id = some t)
    (hp : t.service = c.service)
    (hst : t.status = Status.waiting ∨ t.status = Status.notified)
    (hw : s.windows.find? (fun w =>
        w.wid == window_id && w.service == t.service && w.wstatus == WStatus.active) = none) :
    start_serving c s ticket_id window_id = (Except.error Err.windowUnavailable, s) := by
  unfold start_serving
  rw [hf]
  dsimp only
  rw [if_neg (not_not_intro hp), if_neg (not_not_intro hst), hw]

lemma startServ_ok_eq {c : Ctx} {s : EState} {ticket_id window_id : Nat} {t : Ticket}
    {w : ServiceWindow}
    (hf : findT s.tickets ticket_id = some t)
    (hp : t.service = c.service)
    (hst : t.status = Status.waiting ∨ t.status = Status.notified)
    (hw : s.windows.find? (fun w =>
        w.wid == window_id && w.service == t.service && w.wstatus == WStatus.active) = some w) :
    start_serving c s ticket_id window_id =
      (Except.ok t.tid, { s with tickets := updT s.tickets t.tid (startServingUpd w) }) := by
  unfold start_serving
  rw [hf]
  dsimp only
  rw [if_neg (not_not_intro hp), if_neg (not_not_intro hst), hw]

lemma complete_notfound_eq {c : Ctx} {s : EState} {ticket_id : Nat}
    (hf : findT s.tickets ticket_id = none) :
    complete_serving c s ticket_id = (Except.error Err.notFound, s) := by
  unfold complete_serving
  rw [hf]

lemma complete_perm_eq {c : Ctx} {s : EState} {ticket_id : Nat} {t : Ticket}
    (hf : findT s.tickets ticket_id = some t)
    (hp : t.service ≠ c.service) :
    complete_serving c s ticket_id = (Except.error Err.permissionDenied, s) := by
  unfold complete_serving
  rw [hf]
  dsimp only
  rw [if_pos hp]

lemma complete_invalid_eq {c : Ctx} {s : EState} {ticket_id : Nat} {t : Ticket}
    (hf : findT s.tickets ticket_id = some t)
    (hp : t.service = c.service)
    (hst : t.status ≠ Status.serving) :
    complete_serving c s ticket_id = (Except.error Err.invalidState, s) := by
  unfold complete_serving
  rw [hf]
  dsimp only
  rw [if_neg (not_not_intro hp), if_pos hst]

lemma complete_ok_eq {c : Ctx} {s : EState} {ticket_id : Nat} {t : Ticket}
    (hf : findT s.tickets ticket_id = some t)
    (hp : t.service = c.service)
    (hst : t.status = Status.serving) :
    complete_serving c s ticket_id =
      (Except.ok t.tid, { s with tickets := updT s.tickets t.tid (serveComplete c) }) := by
  unfold complete_serving
  rw [hf]
  dsimp only
  rw [if_neg (not_not_intro hp), if_neg (not_not_intro hst)]

lemma remove_notfound_eq {c : Ctx} {s : EState} {ticket_id : Nat} {reason : String}
    (hf : findT s.tickets ticket_id = none) :
    remove_ticket c s ticket_id reason = (Except.error Err.notFound, s) := by
  unfold remove_ticket
  rw [hf]

lemma remove_perm_eq {c : Ctx} {s : EState} {ticket_id : Nat} {reason : String} {t : Ticket}
    (hf : findT s.tickets ticket_id = some t)
    (hp : t.service ≠ c.service) :
    remove_ticket c s ticket_id reason = (Except.error Err.permissionDenied, s) := by
  unfold remove_ticket
  rw [hf]
  dsimp only
  rw [if_pos hp]

lemma remove_invalid_eq {c : Ctx} {s : EState} {ticket_id : Nat} {reason : String} {t : Ticket}
    (hf : findT s.tickets ticket_id = some t)
    (hp : t.service = c.service)
    (hst : t.status = Status.served) :
    remove_ticket c s ticket_id reason = (Except.error Err.invalidState, s) := by
  unfold remove_ticket
  rw [hf]
  dsimp only
  rw [if_neg (not_not_intro hp), if_pos hst]

lemma remove_ok_eq {c : Ctx} {s : EState} {ticket_id : Nat} {reason : String} {t : Ticket}
    (hf : findT s.tickets ticket_id = some t)
    (hp : t.service = c.service)
    (hst : t.status ≠ Status.served) :
    remove_ticket c s ticket_id reason =
      (Except.ok t.tid, { s with tickets := updT s.tickets t.tid (removeUpd reason) }) := by
  unfold remove_ticket
  rw [hf]
  dsimp only
  rw [if_neg (not_not_intro hp), if_neg hst]

lemma recall_notfound_eq {c : Ctx} {s : EState} {ticket_id : Nat}
    (hf : findT s.tickets ticket_id = none) :
    recall_ticket c s ticket_id = (Except.error Err.notFound, s) := by
  unfold recall_ticket
  rw [hf]

lemma recall_perm_eq {c : Ctx} {s : EState} {ticket_id : Nat} {t : Ticket}
    (hf : findT s.tickets ticket_id = some t)
    (hp : t.service ≠ c.service) :
    recall_ticket c s ticket_id = (Except.error Err.permissionDenied, s) := by
  unfold recall_ticket
  rw [hf]
  dsimp only
  rw [if_pos hp]

lemma recall_invalid_eq {c : Ctx} {s : EState} {ticket_id : Nat} {t : Ticket}
    (hf : findT s.tickets ticket_id = some t)
    (hp : t.service = c.service)
    (hst : ¬(t.status = Status.notified ∨ t.status = Status.skipped ∨
             t.status = Status.cancelled)) :
    recall_ticket c s ticket_id = (Except.error Err.invalidState, s) := by
  unfold recall_ticket
  rw [hf]
  dsimp only
  rw [if_neg (not_not_intro hp), if_pos hst]

lemma recall_ok_eq {c : Ctx} {s : EState} {ticket_id : Nat} {t : Ticket}
    (hf : findT s.tickets ticket_id = some t)
    (hp : t.service = c.service)
    (hst : t.status = Status.notified ∨ t.status = Status.skipped ∨
           t.status = Status.cancelled) :
    recall_ticket c s ticket_id =
      (Except.ok t.tid, { s with tickets := updT s.tickets t.tid recallUpd }) := by
  unfold recall_ticket
  rw [hf]
  dsimp only
  rw [if_neg (not_not_intro hp), if_neg (not_not_intro hst)]

end EquationLemmas

lemma findDisplay_spec {s : EState} {c : Ctx} {num : String} {t : Ticket}
    (hf : s.tickets.find? (fun t =>
        t.service == c.service && t.ticket_date == c.today &&
        t.display_number == num) = some t) :
    t ∈ s.tickets ∧ t.service = c.service ∧ t.ticket_date = c.today := by
  have hm := List.mem_of_find?_eq_some hf
  have hp := List.find?_some hf
  simp only [Bool.and_eq_true, beq_iff_eq] at hp
  exact ⟨hm, hp.1.1, hp.1.2⟩

lemma mem_completeCurrent {c : Ctx} {s : EState} {w : ServiceWindow}
    (hnd : (s.tickets.map Ticket.tid).Nodup) {t : Ticket}
    (ht : t ∈ s.tickets) (hts : t.status ≠ Status.serving) :
    t ∈ (completeCurrent c s w).tickets := by
  unfold completeCurrent
  cases hcs : currentServing s c w with
  | none => exact ht
  | some ct =>
    obtain ⟨hctmem, _, _, _, hctserving⟩ := currentServing_spec hcs
    have hne : t.tid ≠ ct.tid := fun hc => hts (by rw [tid_unique hnd ht hctmem hc, hctserving])
    have hmem := mem_updT_of_mem (k := ct.tid) (g := serveComplete c) ht
    rw [if_neg hne] at hmem
    exact hmem

/-- C1 (amended): call_next_ticket, call_specific_ticket, complete_serving,
remove_ticket, recall_ticket and issue all preserve the invariant that a
window serves at most one ticket per ticket_date, in any store with unique
ticket ids in which serving tickets sit at windows of their own service.
start_serving is excluded: it does not auto-complete the window's current
ticket and can create a second serving ticket at the same window (see the
counterexample). -/
theorem engine_ops_preserve_one_serving (c : Ctx) (s : EState)
    (window_id ticket_id new_tid : Nat) (num disp reason : String)
    (hnd : (s.tickets.map Ticket.tid).Nodup)
    (hco : coherentWindows s)
    (hone : atMostOneServing s) :
    atMostOneServing (call_next_ticket c s window_id).2 ∧
    atMostOneServing (call_specific_ticket c s num window_id).2 ∧
    atMostOneServing (complete_serving c s ticket_id).2 ∧
    atMostOneServing (remove_ticket c s ticket_id reason).2 ∧
    atMostOneServing (recall_ticket c s ticket_id).2 ∧
    atMostOneServing (issue c s new_tid disp) := by
  refine ⟨?_, ?_, ?_, ?_, ?_, ?_⟩
  · cases hw : findWindow s c window_id with
    | none =>
      rw [callNext_none_eq hw]
      exact hone
    | some w =>
      cases hnw : nextWaiting (completeCurrent c s w) c with
      | none =>
        rw [callNext_empty_eq hw hnw]
        exact AMOS_completeCurrent hone
      | some nt =>
        rw [callNext_ok_eq hw hnw]
        obtain ⟨hntmem, _, hntdate, _⟩ := nextWaiting_spec hnw
        show AMOS (updT (completeCurrent c s w).tickets nt.tid (assignServing c w))
        apply AMOS_updT_serving (nodup_completeCurrent hnd) (AMOS_completeCurrent hone)
        intro u hu huk t ht htk hts haw hdate
        have hu_eq : u = nt := tid_unique (nodup_completeCurrent hnd) hu hntmem huk
        apply no_serving_here_after_complete hw hco hone t ht hts
        · rw [haw]
          rfl
        · rw [hdate, hu_eq]
          exact hntdate
  · cases hw : findWindow s c window_id with
    | none =>
      rw [callSpec_none_eq hw]
      exact hone
    | some w =>
      cases hf : s.tickets.find? (fun t =>
          t.service == c.service && t.ticket_date == c.today &&
          t.display_number == num) with
      | none =>
        rw [callSpec_notfound_eq hw hf]
        exact hone
      | some t0 =>
        by_cases hst : t0.status = Status.waiting ∨ t0.status = Status.notified
        · rw [callSpec_ok_eq hw hf hst]
          obtain ⟨ht0mem, _, ht0date⟩ := findDisplay_spec hf
          have ht0ns : t0.status ≠ Status.serving := by
            rcases hst with h | h <;> simp [h]
          have ht0mem1 : t0 ∈ (completeCurrent c s w).tickets :=
            mem_completeCurrent hnd ht0mem ht0ns
          show AMOS (updT (completeCurrent c s w).tickets t0.tid (assignServing c w))
          apply AMOS_updT_serving (nodup_completeCurrent hnd) (AMOS_completeCurrent hone)
          intro u hu huk t ht htk hts haw hdate
          have hu_eq : u = t0 := tid_unique (nodup_completeCurrent hnd) hu ht0mem1 huk
          apply no_serving_here_after_complete hw hco hone t ht hts
          · rw [haw]
            rfl
          · rw [hdate, hu_eq]
            exact ht0date
        · rw [callSpec_invalid_eq hw hf hst]
          exact hone
  · cases hf : findT s.tickets ticket_id with
    | none =>
      rw [complete_notfound_eq hf]
      exact hone
    | some t0 =>
      by_cases hp : t0.service = c.service
      · by_cases hst : t0.status = Status.serving
        · rw [complete_ok_eq hf hp hst]
          show AMOS (updT s.tickets t0.tid (serveComplete c))
          exact AMOS_updT_nonserving (fun t => by simp [serveComplete]) hone
        · rw [complete_invalid_eq hf hp hst]
          exact hone
      · rw [complete_perm_eq hf hp]
        exact hone
  · cases hf : findT s.tickets ticket_id with
    | none =>
      rw [remove_notfound_eq hf]
      exact hone
    | some t0 =>
      by_cases hp : t0.service = c.service
      · by_cases hst : t0.status = Status.served
        · rw [remove_invalid_eq hf hp hst]
          exact hone
        · rw [remove_ok_eq hf hp hst]
          show AMOS (updT s.tickets t0.tid (removeUpd reason))
          exact AMOS_updT_nonserving (fun t => by simp [removeUpd]) hone
      · rw [remove_perm_eq hf hp]
        exact hone
  · cases hf : findT s.tickets ticket_id with
    | none =>
      rw [recall_notfound_eq hf]
      exact hone
    | some t0 =>
      by_cases hp : t0.service = c.service
      · by_cases hst : t0.status = Status.notified ∨ t0.status = Status.skipped ∨
            t0.status = Status.cancelled
        · rw [recall_ok_eq hf hp hst]
          show AMOS (updT s.tickets t0.tid recallUpd)
          exact AMOS_updT_nonserving (fun t => by simp [recallUpd]) hone
        · rw [recall_invalid_eq hf hp hst]
          exact hone
      · rw [recall_perm_eq hf hp]
        exact hone
  · show AMOS (Ticket.mk new_tid c.service (allocate s c) disp Status.waiting c.today
      none none none none none "" :: s.tickets)
    exact AMOS_cons_nonserving (fun h => Status.noConfusion h) hone

/-- Equality of engine results is decidable. -/
instance : DecidableEq (Except Err Nat) := fun x y =>
  match x, y with
  | Except.ok a, Except.ok b =>
      if h : a = b then isTrue (h ▸ rfl) else isFalse fun hc => h (Except.ok.inj hc)
  | Except.error a, Except.error b =>
      if h : a = b then isTrue (h ▸ rfl) else isFalse fun hc => h (Except.error.inj hc)
  | Except.ok _, Except.error _ => isFalse fun hc => Except.noConfusion hc
  | Except.error _, Except.ok _ => isFalse fun hc => Except.noConfusion hc

instance (l : List Ticket) : Decidable (AMOS l) := by
  unfold AMOS
  infer_instance

instance (s : EState) : Decidable (atMostOneServing s) := by
  unfold atMostOneServing
  infer_instance

instance (s : EState) : Decidable (coherentWindows s) := by
  unfold coherentWindows
  infer_instance

/-- A window of service 1. -/
def wEx : ServiceWindow := ⟨1, 1, 1, "Window 1", WStatus.active⟩

/-- A ticket currently serving at window 1 (day 0, service 1). -/
def ctEx : Ticket := ⟨1, 1, 1, "001", Status.serving, 0, some 1, some 9, some 10, none, none, ""⟩

/-- A waiting ticket of the same service and day. -/
def ntEx : Ticket := ⟨2, 1, 2, "002", Status.waiting, 0, none, none, none, none, none, ""⟩

/-- The acting staff context: user 9 assigned to service 1, day 0, time 100. -/
def cEx : Ctx := ⟨9, 1, 0, 100⟩

/-- Store with one serving and one waiting ticket at window 1. -/
def sEx : EState := ⟨[wEx], [ctEx, ntEx]⟩

/-- Store with one serving ticket and an empty waiting queue. -/
def sQE : EState := ⟨[wEx], [ctEx]⟩

/-- C1 counterexample: in a store satisfying the invariant (ticket 1
serving at window 1), start_serving of waiting ticket 2 at window 1
succeeds without completing ticket 1, leaving two tickets serving at
window 1 on the same ticket_date — start_serving does not preserve the
one-ticket-per-window invariant. -/
theorem start_serving_breaks_one_serving :
    atMostOneServing sEx ∧ coherentWindows sEx ∧ (sEx.tickets.map Ticket.tid).Nodup ∧
    (start_serving cEx sEx 2 1).1 = Except.ok 2 ∧
    ¬ atMostOneServing (start_serving cEx sEx 2 1).2 := by
  decide

/-- Witness for the amended C1 at a concrete store: all six operations
applied to sEx keep at most one serving ticket per window. -/
theorem engine_ops_preserve_one_serving_witness :
    atMostOneServing (call_next_ticket cEx sEx 1).2 ∧
    atMostOneServing (call_specific_ticket cEx sEx "002" 1).2 ∧
    atMostOneServing (complete_serving cEx sEx 1).2 ∧
    atMostOneServing (remove_ticket cEx sEx 1 "no-show").2 ∧
    atMostOneServing (recall_ticket cEx sEx 1).2 ∧
    atMostOneServing (issue cEx sEx 3 "003") :=
  engine_ops_preserve_one_serving cEx sEx 1 1 3 "002" "003" "no-show"
    (by decide) (by decide) (by decide)

/-- A ticket status allowed by Ticket.STATUS_CHOICES of
src/queueing/models.py: one of the five declared values, i.e. anything
but skipped. -/
def statusInModel (t : Ticket) : Prop :=
  t.status = Status.waiting ∨ t.status = Status.notified ∨ t.status = Status.serving ∨
    t.status = Status.served ∨ t.status = Status.cancelled

/-- Every ticket of the store carries one of the five declared statuses. -/
def allStatusesInModel (l : List Ticket) : Prop :=
  ∀ t ∈ l, statusInModel t

instance (t : Ticket) : Decidable (statusInModel t) := by
  unfold statusInModel
  infer_instance

instance (l : List Ticket) : Decidable (allStatusesInModel l) := by
  unfold allStatusesInModel
  infer_instance

lemma allStatuses_updT {l : List Ticket} {k : Nat} {g : Ticket → Ticket}
    (hg : ∀ t, statusInModel (g t)) (h : allStatusesInModel l) :
    allStatusesInModel (updT l k g) := by
  intro t ht
  rcases mem_updT ht with ⟨u, _, _, he⟩ | ⟨hm, _⟩
  · rw [he]
    exact hg u
  · exact h t hm

lemma allStatuses_completeCurrent {c : Ctx} {s : EState} {w : ServiceWindow}
    (h : allStatusesInModel s.tickets) :
    allStatusesInModel (completeCurrent c s w).tickets := by
  unfold completeCurrent
  cases hcs : currentServing s c w with
  | none => exact h
  | some ct => exact allStatuses_updT (fun t => by simp [serveComplete, statusInModel]) h

/-- C10: every engine operation keeps every ticket status within the five
values of Ticket.STATUS_CHOICES (waiting, notified, serving, served,
cancelled): no operation ever writes skipped (the writes are served,
serving, cancelled and waiting only), and the MStatus type embedded from
src/queueing/models.py has exactly those five values. -/
theorem no_op_produces_skipped (c : Ctx) (s : EState)
    (window_id ticket_id new_tid : Nat) (num disp reason : String)
    (h : allStatusesInModel s.tickets) :
    allStatusesInModel (call_next_ticket c s window_id).2.tickets ∧
    allStatusesInModel (call_specific_ticket c s num window_id).2.tickets ∧
    allStatusesInModel (start_serving c s ticket_id window_id).2.tickets ∧
    allStatusesInModel (complete_serving c s ticket_id).2.tickets ∧
    allStatusesInModel (remove_ticket c s ticket_id reason).2.tickets ∧
    allStatusesInModel (recall_ticket c s ticket_id).2.tickets ∧
    allStatusesInModel (issue c s new_tid disp).tickets ∧
    (∀ st : MStatus, st = MStatus.waiting ∨ st = MStatus.notified ∨ st = MStatus.serving ∨
      st = MStatus.served ∨ st = MStatus.cancelled) := by
  refine ⟨?_, ?_, ?_, ?_, ?_, ?_, ?_, ?_⟩
  · cases hw : findWindow s c window_id with
    | none =>
      rw [callNext_none_eq hw]
      exact h
    | some w =>
      cases hnw : nextWaiting (completeCurrent c s w) c with
      | none =>
        rw [callNext_empty_eq hw hnw]
        exact allStatuses_completeCurrent h
      | some nt =>
        rw [callNext_ok_eq hw hnw]
        exact allStatuses_updT (fun t => by simp [assignServing, statusInModel])
          (allStatuses_completeCurrent h)
  · cases hw : findWindow s c window_id with
    | none =>
      rw [callSpec_none_eq hw]
      exact h
    | some w =>
      cases hf : s.tickets.find? (fun t =>
          t.service == c.service && t.ticket_date == c.today &&
          t.display_number == num) with
      | none =>
        rw [callSpec_notfound_eq hw hf]
        exact h
      | some t0 =>
        by_cases hst : t0.status = Status.waiting ∨ t0.status = Status.notified
        · rw [callSpec_ok_eq hw hf hst]
          exact allStatuses_updT (fun t => by simp [assignServing, statusInModel])
            (allStatuses_completeCurrent h)
        · rw [callSpec_invalid_eq hw hf hst]
          exact h
  · cases hf : findT s.tickets ticket_id with
    | none =>
      rw [startServ_notfound_eq hf]
      exact h
    | some t0 =>
      by_cases hp : t0.service = c.service
      · by_cases hst : t0.status = Status.waiting ∨ t0.status = Status.notified
        · cases hw : s.windows.find? (fun w =>
              w.wid == window_id && w.service == t0.service &&
              w.wstatus == WStatus.active) with
          | none =>
            rw [startServ_nowin_eq hf hp hst hw]
            exact h
          | some w =>
            rw [startServ_ok_eq hf hp hst hw]
            exact allStatuses_updT (fun t => by simp [startServingUpd, statusInModel]) h
        · rw [startServ_invalid_eq hf hp hst]
          exact h
      · rw [startServ_perm_eq hf hp]
        exact h
  · cases hf : findT s.tickets ticket_id with
    | none =>
      rw [complete_notfound_eq hf]
      exact h
    | some t0 =>
      by_cases hp : t0.service = c.service
      · by_cases hst : t0.status = Status.serving
        · rw [complete_ok_eq hf hp hst]
          exact allStatuses_updT (fun t => by simp [serveComplete, statusInModel]) h
        · rw [complete_invalid_eq hf hp hst]
          exact h
      · rw [complete_perm_eq hf hp]
        exact h
  · cases hf : findT s.tickets ticket_id with
    | none =>
      rw [remove_notfound_eq hf]
      exact h
    | some t0 =>
      by_cases hp : t0.service = c.service
      · by_cases hst : t0.status = Status.served
        · rw [remove_invalid_eq hf hp hst]
          exact h
        · rw [remove_ok_eq hf hp hst]
          exact allStatuses_updT (fun t => by simp [removeUpd, statusInModel]) h
      · rw [remove_perm_eq hf hp]
        exact h
  · cases hf : findT s.tickets ticket_id with
    | none =>
      rw [recall_notfound_eq hf]
      exact h
    | some t0 =>
      by_cases hp : t0.service = c.service
      · by_cases hst : t0.status = Status.notified ∨ t0.status = Status.skipped ∨
            t0.status = Status.cancelled
        · rw [recall_ok_eq hf hp hst]
          exact allStatuses_updT (fun t => by simp [recallUpd, statusInModel]) h
        · rw [recall_invalid_eq hf hp hst]
          exact h
      · rw [recall_perm_eq hf hp]
        exact h
  · show allStatusesInModel (Ticket.mk new_tid c.service (allocate s c) disp Status.waiting
      c.today none none none none none "" :: s.tickets)
    intro t ht
    rcases List.mem_cons.1 ht with he | hm
    · rw [he]
      simp [statusInModel]
    · exact h t hm
  · intro st
    cases st with
    | waiting => exact Or.inl rfl
    | notified => exact Or.inr (Or.inl rfl)
    | serving => exact Or.inr (Or.inr (Or.inl rfl))
    | served => exact Or.inr (Or.inr (Or.inr (Or.inl rfl)))
    | cancelled => exact Or.inr (Or.inr (Or.inr (Or.inr rfl)))

/-- Witness for C10 at the concrete store sEx: all seven operations keep
every status among the five declared values. -/
theorem no_op_produces_skipped_witness :
    allStatusesInModel (call_next_ticket cEx sEx 1).2.tickets ∧
    allStatusesInModel (call_specific_ticket cEx sEx "002" 1).2.tickets ∧
    allStatusesInModel (start_serving cEx sEx 2 1).2.tickets ∧
    allStatusesInModel (complete_serving cEx sEx 2).2.tickets ∧
    allStatusesInModel (remove_ticket cEx sEx 2 "no-show").2.tickets ∧
    allStatusesInModel (recall_ticket cEx sEx 2).2.tickets ∧
    allStatusesInModel (issue cEx sEx 3 "003").tickets ∧
    (∀ st : MStatus, st = MStatus.waiting ∨ st = MStatus.notified ∨ st = MStatus.serving ∨
      st = MStatus.served ∨ st = MStatus.cancelled) :=
  no_op_produces_skipped cEx sEx 1 2 3 "002" "003" "no-show" (by decide)

/-- C2 (amended): every guard-failure path of call_specific_ticket,
start_serving, complete_serving, remove_ticket and recall_ticket returns
the store unchanged, and so does call_next_ticket on windowUnavailable;
but call_next_ticket on queueEmpty keeps the auto-complete write when the
window had a serving ticket: the early return commits the transaction.
-/
theorem guard_failure_performs_no_write (c : Ctx) (s : EState)
    (window_id ticket_id : Nat) (num reason : String) :
    (∀ e, (call_specific_ticket c s num window_id).1 = Except.error e →
      (call_specific_ticket c s num window_id).2 = s) ∧
    (∀ e, (start_serving c s ticket_id window_id).1 = Except.error e →
      (start_serving c s ticket_id window_id).2 = s) ∧
    (∀ e, (complete_serving c s ticket_id).1 = Except.error e →
      (complete_serving c s ticket_id).2 = s) ∧
    (∀ e, (remove_ticket c s ticket_id reason).1 = Except.error e →
      (remove_ticket c s ticket_id reason).2 = s) ∧
    (∀ e, (recall_ticket c s ticket_id).1 = Except.error e →
      (recall_ticket c s ticket_id).2 = s) ∧
    ((call_next_ticket c s window_id).1 = Except.error Err.windowUnavailable →
      (call_next_ticket c s window_id).2 = s) ∧
    ((call_next_ticket c s window_id).1 = Except.error Err.queueEmpty →
      (call_next_ticket c s window_id).2 = s ∨
      ∃ w ct, findWindow s c window_id = some w ∧ currentServing s c w = some ct ∧
        (call_next_ticket c s window_id).2 =
          { s with tickets := updT s.tickets ct.tid (serveComplete c) }) := by
  refine ⟨?_, ?_, ?_, ?_, ?_, ?_, ?_⟩
  · intro e h
    cases hw : findWindow s c window_id with
    | none =>
      rw [callSpec_none_eq hw]
    | some w =>
      cases hf : s.tickets.find? (fun t =>
          t.service == c.service && t.ticket_date == c.today &&
          t.display_number == num) with
      | none =>
        rw [callSpec_notfound_eq hw hf]
      | some t0 =>
        by_cases hst : t0.status = Status.waiting ∨ t0.status = Status.notified
        · rw [callSpec_ok_eq hw hf hst] at h
          simp at h
        · rw [callSpec_invalid_eq hw hf hst]
  · intro e h
    cases hf : findT s.tickets ticket_id with
    | none =>
      rw [startServ_notfound_eq hf]
    | some t0 =>
      by_cases hp : t0.service = c.service
      · by_cases hst : t0.status = Status.waiting ∨ t0.status = Status.notified
        · cases hw : s.windows.find? (fun w =>
              w.wid == window_id && w.service == t0.service &&
              w.wstatus == WStatus.active) with
          | none =>
            rw [startServ_nowin_eq hf hp hst hw]
          | some w =>
            rw [startServ_ok_eq hf hp hst hw] at h
            simp at h
        · rw [startServ_invalid_eq hf hp hst]
      · rw [startServ_perm_eq hf hp]
  · intro e h
    cases hf : findT s.tickets ticket_id with
    | none =>
      rw [complete_notfound_eq hf]
    | some t0 =>
      by_cases hp : t0.service = c.service
      · by_cases hst : t0.status = Status.serving
        · rw [complete_ok_eq hf hp hst] at h
          simp at h
        · rw [complete_invalid_eq hf hp hst]
      · rw [complete_perm_eq hf hp]
  · intro e h
    cases hf : findT s.tickets ticket_id with
    | none =>
      rw [remove_notfound_eq hf]
    | some t0 =>
      by_cases hp : t0.service = c.service
      · by_cases hst : t0.status = Status.served
        · rw [remove_invalid_eq hf hp hst]
        · rw [remove_ok_eq hf hp hst] at h
          simp at h
      · rw [remove_perm_eq hf hp]
  · intro e h
    cases hf : findT s.tickets ticket_id with
    | none =>
      rw [recall_notfound_eq hf]
    | some t0 =>
      by_cases hp : t0.service = c.service
      · by_cases hst : t0.status = Status.notified ∨ t0.status = Status.skipped ∨
            t0.status = Status.cancelled
        · rw [recall_ok_eq hf hp hst] at h
          simp at h
        · rw [recall_invalid_eq hf hp hst]
      · rw [recall_perm_eq hf hp]
  · intro h
    cases hw : findWindow s c window_id with
    | none =>
      rw [callNext_none_eq hw]
    | some w =>
      cases hnw : nextWaiting (completeCurrent c s w) c with
      | none =>
        rw [callNext_empty_eq hw hnw] at h
        simp at h
      | some nt =>
        rw [callNext_ok_eq hw hnw] at h
        simp at h
  · intro h
    cases hw : findWindow s c window_id with
    | none =>
      rw [callNext_none_eq hw] at h
      simp at h
    | some w =>
      cases hnw : nextWaiting (completeCurrent c s w) c with
      | none =>
        rw [callNext_empty_eq hw hnw]
        cases hcs : currentServing s c w with
        | none =>
          left
          show completeCurrent c s w = s
          unfold completeCurrent
          rw [hcs]
        | some ct =>
          right
          refine ⟨w, ct, rfl, hcs, ?_⟩
          show completeCurrent c s w = _
          unfold completeCurrent
          rw [hcs]
      | some nt =>
        rw [callNext_ok_eq hw hnw] at h
        simp at h

/-- C2 counterexample: with ticket 1 serving at window 1 and no waiting
tickets, call_next_ticket returns the queueEmpty error yet the resulting
store differs from the starting store — the auto-completion of ticket 1
was committed on the error path. -/
theorem call_next_queue_empty_writes :
    (call_next_ticket cEx sQE 1).1 = Except.error Err.queueEmpty ∧
    (call_next_ticket cEx sQE 1).2 ≠ sQE := by
  decide

/-- Witness for the amended C2 at concrete inputs: a notFound failure of
call_specific_ticket and of recall_ticket leaves the store unchanged. -/
theorem guard_failure_performs_no_write_witness :
    (call_specific_ticket cEx sQE "999" 1).2 = sQE ∧
    (recall_ticket cEx sQE 7).2 = sQE :=
  ⟨(guard_failure_performs_no_write cEx sQE 1 7 "999" "r").1 Err.notFound (by decide),
   (guard_failure_performs_no_write cEx sQE 1 7 "999" "r").2.2.2.2.1 Err.notFound (by decide)⟩

lemma findT_tid_eq {l : List Ticket} {k : Nat} {t : Ticket}
    (hf : findT l k = some t) : t.tid = k := by
  have hp := List.find?_some hf
  exact beq_iff_eq.1 hp

lemma recallUpd_tid : ∀ t, (recallUpd t).tid = t.tid := by
  intro t
  rfl

lemma removeUpd_tid (reason : String) : ∀ t, (removeUpd reason t).tid = t.tid := by
  intro t
  rfl

/-- C8: recall_ticket succeeds exactly from notified, skipped or
cancelled; on success the ticket is reset to waiting with called_by and
called_at cleared and the prior status written in front of the notes; from
waiting, serving or served it fails with the invalid-state error and the
store is unchanged. -/
theorem recall_exactly_from_notified_skipped_cancelled (c : Ctx) (s : EState)
    (k : Nat) (t : Ticket)
    (hf : findT s.tickets k = some t) (hp : t.service = c.service) :
    ((recall_ticket c s k).1 = Except.ok t.tid ↔
      (t.status = Status.notified ∨ t.status = Status.skipped ∨
       t.status = Status.cancelled)) ∧
    ((t.status = Status.notified ∨ t.status = Status.skipped ∨
      t.status = Status.cancelled) →
      ∃ t2, findT (recall_ticket c s k).2.tickets k = some t2 ∧
        t2.status = Status.waiting ∧ t2.called_by = none ∧ t2.called_at = none ∧
        t2.notes = "Recalled from " ++ statusName t.status ++ ": " ++ t.notes ∧
        t2.queue_number = t.queue_number ∧ t2.service = t.service ∧
        t2.ticket_date = t.ticket_date) ∧
    ((t.status = Status.serving ∨ t.status = Status.served ∨
      t.status = Status.waiting) →
      recall_ticket c s k = (Except.error Err.invalidState, s)) := by
  have htid : t.tid = k := findT_tid_eq hf
  refine ⟨?_, ?_, ?_⟩
  · constructor
    · intro hok
      by_cases hst : t.status = Status.notified ∨ t.status = Status.skipped ∨
          t.status = Status.cancelled
      · exact hst
      · rw [recall_invalid_eq hf hp hst] at hok
        simp at hok
    · intro hst
      rw [recall_ok_eq hf hp hst]
  · intro hst
    rw [recall_ok_eq hf hp hst]
    refine ⟨recallUpd t, ?_, rfl, rfl, rfl, rfl, rfl, rfl, rfl⟩
    show findT (updT s.tickets t.tid recallUpd) k = some (recallUpd t)
    rw [findT_updT _ _ _ recallUpd_tid, hf]
    simp [htid]
  · intro hq
    have hst : ¬(t.status = Status.notified ∨ t.status = Status.skipped ∨
        t.status = Status.cancelled) := by
      rcases hq with h | h | h <;> simp [h]
    exact recall_invalid_eq hf hp hst

/-- A notified ticket of service 1 (day 0), called by user 9. -/
def nfEx : Ticket := ⟨4, 1, 3, "003", Status.notified, 0, some 1, some 9, some 10, none, none, "n"⟩

/-- Store holding only the notified ticket. -/
def sRc : EState := ⟨[wEx], [nfEx]⟩

/-- Witness for C8 at a concrete store: recalling the notified ticket 4
succeeds, resets it to waiting with cleared call fields and the note, and
the failure clause is available. -/
theorem recall_exactly_witness :
    ((recall_ticket cEx sRc 4).1 = Except.ok nfEx.tid ↔
      (nfEx.status = Status.notified ∨ nfEx.status = Status.skipped ∨
       nfEx.status = Status.cancelled)) ∧
    ((nfEx.status = Status.notified ∨ nfEx.status = Status.skipped ∨
      nfEx.status = Status.cancelled) →
      ∃ t2, findT (recall_ticket cEx sRc 4).2.tickets 4 = some t2 ∧
        t2.status = Status.waiting ∧ t2.called_by = none ∧ t2.called_at = none ∧
        t2.notes = "Recalled from " ++ statusName nfEx.status ++ ": " ++ nfEx.notes ∧
        t2.queue_number = nfEx.queue_number ∧ t2.service = nfEx.service ∧
        t2.ticket_date = nfEx.ticket_date) ∧
    ((nfEx.status = Status.serving ∨ nfEx.status = Status.served ∨
      nfEx.status = Status.waiting) →
      recall_ticket cEx sRc 4 = (Except.error Err.invalidState, sRc)) :=
  recall_exactly_from_notified_skipped_cancelled cEx sRc 4 nfEx (by decide) (by decide)

/-- C9 (amended): remove_ticket fails only on a served ticket; from every
other status — waiting, notified, serving, skipped AND already-cancelled —
it succeeds, sets cancelled and overwrites the notes with the reason. -/
theorem remove_rejects_only_served (c : Ctx) (s : EState)
    (k : Nat) (reason : String) (t : Ticket)
    (hf : findT s.tickets k = some t) (hp : t.service = c.service) :
    ((remove_ticket c s k reason).1 = Except.ok t.tid ↔ t.status ≠ Status.served) ∧
    (t.status ≠ Status.served →
      ∃ t2, findT (remove_ticket c s k reason).2.tickets k = some t2 ∧
        t2.status = Status.cancelled ∧
        t2.notes = "Removed from queue: " ++ reason ∧
        t2.queue_number = t.queue_number ∧ t2.service = t.service) ∧
    (t.status = Status.served →
      remove_ticket c s k reason = (Except.error Err.invalidState, s)) := by
  have htid : t.tid = k := findT_tid_eq hf
  refine ⟨?_, ?_, ?_⟩
  · constructor
    · intro hok
      intro hst
      rw [remove_invalid_eq hf hp hst] at hok
      simp at hok
    · intro hst
      rw [remove_ok_eq hf hp hst]
  · intro hst
    rw [remove_ok_eq hf hp hst]
    refine ⟨removeUpd reason t, ?_, rfl, rfl, rfl, rfl⟩
    show findT (updT s.tickets t.tid (removeUpd reason)) k = some (removeUpd reason t)
    rw [findT_updT _ _ _ (removeUpd_tid reason), hf]
    simp [htid]
  · intro hst
    exact remove_invalid_eq hf hp hst

/-- A cancelled ticket of service 1 (day 0). -/
def ccEx : Ticket := ⟨5, 1, 4, "004", Status.cancelled, 0, none, none, none, none, none, "x"⟩

/-- Store holding only the cancelled ticket. -/
def sRm : EState := ⟨[wEx], [ccEx]⟩

/-- C9 counterexample: removing the already-cancelled ticket 5 succeeds
(the guard in remove_ticket checks only for served), while the claim says
removal of a cancelled ticket must fail. -/
theorem remove_cancelled_succeeds :
    ccEx.status = Status.cancelled ∧
    (remove_ticket cEx sRm 5 "again").1 = Except.ok 5 := by
  decide

/-- Witness for the amended C9 at a concrete store: removing the
cancelled ticket 5 succeeds, re-cancels it and overwrites its notes. -/
theorem remove_rejects_only_served_witness :
    ((remove_ticket cEx sRm 5 "again").1 = Except.ok ccEx.tid ↔
      ccEx.status ≠ Status.served) ∧
    (ccEx.status ≠ Status.served →
      ∃ t2, findT (remove_ticket cEx sRm 5 "again").2.tickets 5 = some t2 ∧
        t2.status = Status.cancelled ∧
        t2.notes = "Removed from queue: " ++ "again" ∧
        t2.queue_number = ccEx.queue_number ∧ t2.service = ccEx.service) ∧
    (ccEx.status = Status.served →
      remove_ticket cEx sRm 5 "again" = (Except.error Err.invalidState, sRm)) :=
  remove_rejects_only_served cEx sRm 5 "again" ccEx (by decide) (by decide)

lemma completeCurrent_some_eq {c : Ctx} {s : EState} {w : ServiceWindow} {ct : Ticket}
    (hct : currentServing s c w = some ct) :
    completeCurrent c s w = { s with tickets := updT s.tickets ct.tid (serveComplete c) } := by
  unfold completeCurrent
  rw [hct]

/-- C7: when the window already has a serving ticket ct, a successful
call_next_ticket or call_specific_ticket leaves ct served with served_by
and served_at set, and the newly called ticket serving at that window with
called_by and called_at set — the whole exchange is a single transition of
the embedded engine (one atomic operation). -/
theorem call_ops_complete_prior_before_assign (c : Ctx) (s : EState) (window_id : Nat)
    (w : ServiceWindow) (ct : Ticket)
    (hnd : (s.tickets.map Ticket.tid).Nodup)
    (hw : findWindow s c window_id = some w)
    (hct : currentServing s c w = some ct) :
    (∀ ntid s2, call_next_ticket c s window_id = (Except.ok ntid, s2) →
      (∃ t1, findT s2.tickets ct.tid = some t1 ∧ t1.status = Status.served ∧
        t1.served_by = some c.user ∧ t1.served_at = some c.now) ∧
      (∃ t2, findT s2.tickets ntid = some t2 ∧ t2.status = Status.serving ∧
        t2.assigned_window = some w.wid ∧ t2.called_by = some c.user ∧
        t2.called_at = some c.now)) ∧
    (∀ num ntid s2, call_specific_ticket c s num window_id = (Except.ok ntid, s2) →
      (∃ t1, findT s2.tickets ct.tid = some t1 ∧ t1.status = Status.served ∧
        t1.served_by = some c.user ∧ t1.served_at = some c.now) ∧
      (∃ t2, findT s2.tickets ntid = some t2 ∧ t2.status = Status.serving ∧
        t2.assigned_window = some w.wid ∧ t2.called_by = some c.user ∧
        t2.called_at = some c.now)) := by
  obtain ⟨hctmem, hctserv, hctaw, hctdate, hctserving⟩ := currentServing_spec hct
  have hcc := completeCurrent_some_eq hct
  constructor
  · intro ntid s2 heq
    cases hnw : nextWaiting (completeCurrent c s w) c with
    | none =>
      rw [callNext_empty_eq hw hnw] at heq
      simp at heq
    | some nt =>
      rw [callNext_ok_eq hw hnw] at heq
      rw [Prod.mk.injEq] at heq
      obtain ⟨h1, h2⟩ := heq
      have hntid : nt.tid = ntid := Except.ok.inj h1
      subst h2
      obtain ⟨hntmem, _, _, hntwait⟩ := nextWaiting_spec hnw
      have hne : nt.tid ≠ ct.tid := by
        intro hc
        rw [hcc] at hntmem
        rcases mem_updT hntmem with ⟨u, _, _, he⟩ | ⟨_, hk⟩
        · rw [he] at hntwait
          exact absurd hntwait (by simp [serveComplete])
        · exact hk hc
      constructor
      · refine ⟨serveComplete c ct, ?_, rfl, rfl, rfl⟩
        show findT (updT (completeCurrent c s w).tickets nt.tid (assignServing c w))
          ct.tid = some (serveComplete c ct)
        rw [findT_updT _ _ _ (assignServing_tid c w), hcc]
        show (findT (updT s.tickets ct.tid (serveComplete c)) ct.tid).map _ = _
        rw [findT_updT _ _ _ (serveComplete_tid c), findT_of_mem hnd hctmem]
        have hcts : ¬ (ct.tid = nt.tid) := fun hc => hne hc.symm
        simp [serveComplete, hcts]
      · refine ⟨assignServing c w nt, ?_, rfl, rfl, rfl, rfl⟩
        rw [← hntid]
        show findT (updT (completeCurrent c s w).tickets nt.tid (assignServing c w))
          nt.tid = some (assignServing c w nt)
        rw [findT_updT _ _ _ (assignServing_tid c w),
          findT_of_mem (nodup_completeCurrent hnd) hntmem]
        simp
  · intro num ntid s2 heq
    cases hf : s.tickets.find? (fun t =>
        t.service == c.service && t.ticket_date == c.today &&
        t.display_number == num) with
    | none =>
      rw [callSpec_notfound_eq hw hf] at heq
      simp at heq
    | some t0 =>
      by_cases hst : t0.status = Status.waiting ∨ t0.status = Status.notified
      · rw [callSpec_ok_eq hw hf hst] at heq
        rw [Prod.mk.injEq] at heq
        obtain ⟨h1, h2⟩ := heq
        have hntid : t0.tid = ntid := Except.ok.inj h1
        subst h2
        obtain ⟨ht0mem, _, _⟩ := findDisplay_spec hf
        have ht0ns : t0.status ≠ Status.serving := by
          rcases hst with h | h <;> simp [h]
        have hne : t0.tid ≠ ct.tid := fun hc =>
          ht0ns (by rw [tid_unique hnd ht0mem hctmem hc, hctserving])
        have ht0mem1 : t0 ∈ (completeCurrent c s w).tickets :=
          mem_completeCurrent hnd ht0mem ht0ns
        constructor
        · refine ⟨serveComplete c ct, ?_, rfl, rfl, rfl⟩
          show findT (updT (completeCurrent c s w).tickets t0.tid (assignServing c w))
            ct.tid = some (serveComplete c ct)
          rw [findT_updT _ _ _ (assignServing_tid c w), hcc]
          show (findT (updT s.tickets ct.tid (serveComplete c)) ct.tid).map _ = _
          rw [findT_updT _ _ _ (serveComplete_tid c), findT_of_mem hnd hctmem]
          have hcts : ¬ (ct.tid = t0.tid) := fun hc => hne hc.symm
          simp [serveComplete, hcts]
        · refine ⟨assignServing c w t0, ?_, rfl, rfl, rfl, rfl⟩
          rw [← hntid]
          show findT (updT (completeCurrent c s w).tickets t0.tid (assignServing c w))
            t0.tid = some (assignServing c w t0)
          rw [findT_updT _ _ _ (assignServing_tid c w),
            findT_of_mem (nodup_completeCurrent hnd) ht0mem1]
          simp
      · rw [callSpec_invalid_eq hw hf hst] at heq
        simp at heq

/-- Witness for C7 at the concrete store sEx: calling next at window 1
(already serving ticket 1) completes ticket 1 and assigns waiting ticket 2
to the window. -/
theorem call_ops_complete_prior_witness :
    (∃ t1, findT (call_next_ticket cEx sEx 1).2.tickets 1 = some t1 ∧
      t1.status = Status.served ∧ t1.served_by = some 9 ∧ t1.served_at = some 100) ∧
    (∃ t2, findT (call_next_ticket cEx sEx 1).2.tickets 2 = some t2 ∧
      t2.status = Status.serving ∧ t2.assigned_window = some 1 ∧
      t2.called_by = some 9 ∧ t2.called_at = some 100) :=
  (call_ops_complete_prior_before_assign cEx sEx 1 wEx ctEx
    (by decide) (by decide) (by decide)).1 2 (call_next_ticket cEx sEx 1).2 (by decide)
